import Mathlib

/-!
# Verification of the langgraph-example conversational workflow engine

Shallow embedding of `src/src/graph.py`, `src/src/main.py` (and the draft
`src/main.py`) of the `brunolnetto/langgraph-example` repository, together
with theorems settling the frozen claims about its specification.

Conventions:
* LangChain messages are modelled by `Message` with a `role`, free-text
  `content`, a (possibly empty) `tool_calls` list and an optional
  `tool_call_id` correlation key.  `isinstance(m, HumanMessage)` becomes
  `m.role = Role.user`; `msg.type == "ai"` becomes `m.role = Role.assistant`.
* The graph state (`State` TypedDict in `graph.py`) carries the message list
  plus the dynamically-added `confirmation_retries` key, modelled as an
  `Option Nat` (`none` = key absent, matching Python's `in` / `del`).
* External capabilities (the two LLMs, the two classifiers, tool executors)
  are parameters of the embedded functions, so theorems quantify over every
  behaviour the external capability's contract allows.
* Python runtime errors (failed `assert`, a node returning a non-dict value)
  surface as `Option.none` results.
-/

-- ---------------------------------------------------------------------------
-- Data model (from src/src/graph.py, src/src/models.py and langchain message
-- shapes used by the host loop)
-- ---------------------------------------------------------------------------

/-- Message roles: `HumanMessage` / `AIMessage` / `ToolMessage`. -/
inductive Role where
  | user
  | assistant
  | tool
deriving DecidableEq, Repr

/-- A LangChain tool call dict `{id, name, args}`.  The `id` key may be
absent (`src/src/main.py` guards with `if "id" in first_call`), hence
`Option String`. -/
structure ToolCall where
  id : Option String
  name : String
  args : String
deriving DecidableEq, Repr

/-- A conversation message.  For non-assistant messages `tool_calls` is `[]`
(mirroring the `hasattr(last_msg, "tool_calls")` guard in
`detect_sensitive_case`); `tool_call_id` is set only on tool-result
messages. -/
structure Message where
  role : Role
  content : String
  tool_calls : List ToolCall := []
  tool_call_id : Option String := none
deriving DecidableEq, Repr

/-- `HumanMessage(content=...)` constructor. -/
def humanMessage (content : String) : Message :=
  { role := Role.user, content := content }

/-- `ToolMessage(tool_call_id=..., content=...)` constructor. -/
def toolMessage (tool_call_id : String) (content : String) : Message :=
  { role := Role.tool, content := content, tool_call_id := some tool_call_id }

/-- The graph `State`.  `messages` is the `add_messages`-annotated list;
`confirmation_retries` is the extra key `handle_user_confirmation` stores in
the state dict (`none` when the key is absent, as on a freshly entered
gate). -/
structure State where
  messages : List Message
  confirmation_retries : Option Nat := none
deriving DecidableEq, Repr

/-- `ConfirmationIntent` enum from `src/src/graph.py` / `models.py`. -/
inductive ConfirmationIntent where
  | confirm
  | deny
  | unclear
deriving DecidableEq, Repr

/-- `.value` of a `ConfirmationIntent` member. -/
def ConfirmationIntent.value : ConfirmationIntent → String
  | .confirm => "confirm"
  | .deny => "deny"
  | .unclear => "unclear"

/-- `UserIntent.intent`: the intent classifier's closed output set
`Literal["exit", "continue"]` (pydantic validates the schema, so the
classifier result is always one of the two). -/
inductive IntentLabel where
  | exit
  | cont
deriving DecidableEq, Repr

-- ---------------------------------------------------------------------------
-- Confirmation gate: handle_user_confirmation (src/src/graph.py lines 135-158)
-- ---------------------------------------------------------------------------

/-- `MAX_RETRIES = 3` (src/src/graph.py line 135). -/
def MAX_RETRIES : Nat := 3

/-- Result of one `handle_user_confirmation` run: the routing label it
returns, the state as mutated in place, and how many confirmation-classifier
calls it issued (0 or 1). -/
structure ConfirmOutcome where
  label : String
  state : State
  classifierCalls : Nat
deriving DecidableEq, Repr

/-- `handle_user_confirmation(state)` from `src/src/graph.py` lines 136-158.

```
last_msg = state["messages"][-1]
if not isinstance(last_msg, HumanMessage): return "unclear"
retries = state.get("confirmation_retries", 0)
result = confirmation_classifier.invoke(last_msg.content)
intent = result.intent.value
if intent == "unclear":
    retries += 1
    state["confirmation_retries"] = retries
    if retries >= MAX_RETRIES: return "deny"
    return "unclear"
else:
    if "confirmation_retries" in state: del state["confirmation_retries"]
    return intent
```

The confirmation classifier is an external capability and is passed as the
`classify` parameter.  `none` models the `IndexError` Python raises on an
empty message list. -/
def handle_user_confirmation (classify : String → ConfirmationIntent)
    (state : State) : Option ConfirmOutcome :=
  match state.messages.getLast? with
  | none => none
  | some last_msg =>
    if last_msg.role ≠ Role.user then
      some { label := "unclear", state := state, classifierCalls := 0 }
    else
      let retries := state.confirmation_retries.getD 0
      let intent := classify last_msg.content
      if intent = ConfirmationIntent.unclear then
        let retries' := retries + 1
        let state' := { state with confirmation_retries := some retries' }
        if retries' ≥ MAX_RETRIES then
          some { label := "deny", state := state', classifierCalls := 1 }
        else
          some { label := "unclear", state := state', classifierCalls := 1 }
      else
        some { label := intent.value,
               state := { state with confirmation_retries := none },
               classifierCalls := 1 }

/-- One gate round-trip: the awaiting gate receives a fresh human reply
(appended to the log by the engine) and `handle_user_confirmation` runs as
the `awaiting_user_confirmation_decision` evaluator. -/
def gateStep (classify : String → ConfirmationIntent) (state : State)
    (reply : String) : Option ConfirmOutcome :=
  handle_user_confirmation classify
    { state with messages := state.messages ++ [humanMessage reply] }

/-- Three consecutive gate round-trips with replies `r1, r2, r3`, threading
the (in-place mutated) state and accumulating classifier calls.  `none` if
any round fails at runtime. -/
def gateThreeRounds (classify : String → ConfirmationIntent) (state : State)
    (r1 r2 r3 : String) : Option (String × State × Nat) :=
  match gateStep classify state r1 with
  | none => none
  | some o1 =>
    match gateStep classify o1.state r2 with
    | none => none
    | some o2 =>
      match gateStep classify o2.state r3 with
      | none => none
      | some o3 =>
        some (o3.label, o3.state,
              o1.classifierCalls + o2.classifierCalls + o3.classifierCalls)

-- ---------------------------------------------------------------------------
-- Sensitivity detection and routing (src/src/graph.py lines 129-133, 165-224)
-- ---------------------------------------------------------------------------

/-- The registered name of the sensitive tool: `@tool def human_assistance`
gives the tool the name `"human_assistance"` (`sensitive_tools =
[human_assistance]`, src/src/graph.py lines 47-55). -/
def humanAssistanceToolName : String := "human_assistance"

/-- `detect_sensitive_case(state)` from `src/src/graph.py` lines 129-133:

```
last_msg = state["messages"][-1]
return hasattr(last_msg, "tool_calls") and \
    last_msg.tool_calls and \
    last_msg.tool_calls[0]["name"] == "human_assistance_node"
```

Messages without a `tool_calls` attribute (human/tool messages) are modelled
with `tool_calls = []`, which the truthiness test rejects just as `hasattr`
does.  `none` models the `IndexError` on an empty list. -/
def detect_sensitive_case (state : State) : Option Bool :=
  match state.messages.getLast? with
  | none => none
  | some last_msg =>
    match last_msg.tool_calls.head? with
    | none => some false
    | some first => some (first.name = "human_assistance_node")

/-- Routing labels: the source mixes raw booleans (`True`/`False` keys) and
strings (`"continue"`, `"confirm"`, ...) as conditional-edge labels. -/
inductive RLabel where
  | bool (b : Bool)
  | str (s : String)
deriving DecidableEq, Repr

/-- Graph node names, as registered with `graph_builder.add_node`
(src/src/graph.py lines 168-175), plus the `START`/`END` sentinels. -/
inductive GNode where
  | START
  | which_intent_decision
  | chatbot_with_safe_tools_node
  | safe_tools
  | sensitive_tools
  | is_sensitive_decision
  | awaiting_user_confirmation_decision
  | human_assistance_node
  | end_conversation_node
  | END
deriving DecidableEq, Repr

/-- Routing table of the `which_intent_decision` conditional edge
(src/src/graph.py lines 180-187). -/
def whichIntentTable : List (RLabel × GNode) :=
  [(RLabel.str "continue", GNode.chatbot_with_safe_tools_node),
   (RLabel.str "exit", GNode.end_conversation_node)]

/-- Routing table of the `chatbot_with_safe_tools_node` conditional edge
(src/src/graph.py lines 189-196): keyed by the raw booleans `True`/`False`. -/
def chatbotEdgeTable : List (RLabel × GNode) :=
  [(RLabel.bool true, GNode.safe_tools),
   (RLabel.bool false, GNode.is_sensitive_decision)]

/-- Routing table of the `is_sensitive_decision` conditional edge
(src/src/graph.py lines 199-206). -/
def isSensitiveTable : List (RLabel × GNode) :=
  [(RLabel.bool true, GNode.awaiting_user_confirmation_decision),
   (RLabel.bool false, GNode.chatbot_with_safe_tools_node)]

/-- Routing table of the `awaiting_user_confirmation_decision` conditional
edge (src/src/graph.py lines 208-216). -/
def confirmationTable : List (RLabel × GNode) :=
  [(RLabel.str "confirm", GNode.human_assistance_node),
   (RLabel.str "deny", GNode.chatbot_with_safe_tools_node),
   (RLabel.str "unclear", GNode.awaiting_user_confirmation_decision)]

/-- Outcome of evaluating a conditional edge. -/
inductive RouteOutcome where
  | target (n : GNode)
  | routingError
deriving DecidableEq, Repr

/-- Modelled from the spec: the Graph Engine's conditional-edge dispatch
(spec section 4.1; the engine itself is the external langgraph runtime, not
under `src/`).  The evaluator's label is looked up in the edge's routing
table; "an unmapped label is a fatal RoutingError" and the thread's state is
left at its last good checkpoint — the dispatch never substitutes a default
target. -/
def routeLabel (table : List (RLabel × GNode)) (label : RLabel) : RouteOutcome :=
  match table.lookup label with
  | some n => RouteOutcome.target n
  | none => RouteOutcome.routingError

/-- Modelled from the spec: `tools_condition` is the langgraph prebuilt
evaluator bound to the chat node's conditional edge (not under `src/`).  Per
the comment in `src/main.py` lines 61-62 it "returns `"tools"` if the
chatbot asks to use a tool, and `"END"` (the sentinel string `"__end__"`) if
it is fine directly responding" — always a string label, never a boolean. -/
def tools_condition (state : State) : RLabel :=
  match state.messages.getLast? with
  | none => RLabel.str "__end__"
  | some last_msg =>
    if last_msg.tool_calls.isEmpty then RLabel.str "__end__"
    else RLabel.str "tools"

/-- `check_user_intent(state)` from `src/src/graph.py` lines 122-127: finds
the latest `HumanMessage` (raising `StopIteration`, modelled `none`, when
there is none) and returns the external intent classifier's label. -/
def check_user_intent (classify_intent : String → IntentLabel)
    (state : State) : Option IntentLabel :=
  match state.messages.reverse.find? (fun m => m.role = Role.user) with
  | none => none
  | some last_user_msg => some (classify_intent last_user_msg.content)

/-- The label string `check_user_intent` returns to the routing layer. -/
def IntentLabel.value : IntentLabel → String
  | .exit => "exit"
  | .cont => "continue"

-- ---------------------------------------------------------------------------
-- add_messages merge and the graph nodes (src/src/graph.py lines 70-85,
-- 168-175)
-- ---------------------------------------------------------------------------

/-- Modelled from the spec: `add_messages` is the external langgraph reducer
annotating `State.messages` (not under `src/`).  Per the annotation comment
in `src/main.py` lines 22-24 ("it appends messages to the list, rather than
overwriting them") and spec section 4.1 ("messages are appended, never
overwritten"), a node's message delta is appended to the existing log. -/
def add_messages (existing delta : List Message) : List Message :=
  existing ++ delta

/-- The external capabilities the graph nodes call: the safe-tool-bound and
sensitive-tool-bound chat models (`safe_llm`, `sensitive_llm`,
src/src/graph.py lines 61-64) and the underlying tool implementations the
prebuilt `ToolNode`s execute. -/
structure Env where
  safe_llm : List Message → Message
  sensitive_llm : List Message → Message
  safe_exec : ToolCall → String
  sensitive_exec : ToolCall → String

/-- Modelled from the spec: the prebuilt `ToolNode` (external langgraph
code, not under `src/`).  Per spec section 4.3 it executes each ToolCall of
the latest assistant message and wraps the result "into a tool-result
message carrying the originating call's id".  A call without an id gets no
correlation key. -/
def toolNodeDelta (exec : ToolCall → String) (state : State) : List Message :=
  match state.messages.getLast? with
  | none => []
  | some last_msg =>
    last_msg.tool_calls.map (fun tc =>
      { role := Role.tool, content := exec tc, tool_call_id := tc.id })

/-- `chatbot_with_safe_tools(state)` (src/src/graph.py lines 70-73): invokes
`safe_llm`, asserts `len(message.tool_calls) <= 1`, returns the one-message
delta.  `none` models an `AssertionError`. -/
def chatbot_with_safe_tools (env : Env) (state : State) :
    Option (List Message) :=
  let message := env.safe_llm state.messages
  if message.tool_calls.length ≤ 1 then some [message] else none

/-- `confirm_topic_node(state)` (src/src/graph.py lines 75-77; defined in the
source but never added to the graph builder). -/
def confirm_topic_node (_state : State) : List Message :=
  [humanMessage "Do you want me to consult a human on this topic? (yes/no)"]

/-- `sensitive_tool_handler(state)` (src/src/graph.py lines 79-81; defined
but never added to the graph builder). -/
def sensitive_tool_handler (env : Env) (state : State) : List Message :=
  [env.sensitive_llm state.messages]

/-- `end_conversation_node(state)` (src/src/graph.py lines 83-85): one
closing `safe_llm` message, no assertion, no tool execution. -/
def end_conversation_node (env : Env) (state : State) : List Message :=
  [env.safe_llm state.messages]

/-- The message delta produced by executing one registered graph node
(src/src/graph.py lines 168-175).  `none` models a node whose Python body
raises or returns a value the engine rejects:

* `is_sensitive_decision` and `awaiting_user_confirmation_decision` are
  registered with the evaluator functions themselves, which return a
  `bool`/`str` instead of a state-delta dict — an invalid update at runtime;
* `human_assistance_node` is `lambda state: {"messages": state.messages}`,
  whose attribute access on the `State` TypedDict (a plain dict) raises
  `AttributeError` in Python; its dict-access reading `state["messages"]`
  re-submits the whole existing log as the delta, which we model;
* `chatbot_with_safe_tools_node` is `none` exactly when its assertion fails.

`START`/`END` are sentinels, not executable nodes. -/
def nodeDelta (env : Env) (n : GNode) (state : State) :
    Option (List Message) :=
  match n with
  | GNode.START => none
  | GNode.which_intent_decision => some []
  | GNode.chatbot_with_safe_tools_node => chatbot_with_safe_tools env state
  | GNode.safe_tools => some (toolNodeDelta env.safe_exec state)
  | GNode.sensitive_tools => some (toolNodeDelta env.sensitive_exec state)
  | GNode.is_sensitive_decision => none
  | GNode.awaiting_user_confirmation_decision => none
  | GNode.human_assistance_node => some state.messages
  | GNode.end_conversation_node => some (end_conversation_node env state)
  | GNode.END => none

/-- Committing a node execution: the delta's messages are merged into the
state via `add_messages`.  A node that produced no valid delta commits
nothing (the engine fails the super-step without a partial write). -/
def applyNode (env : Env) (n : GNode) (state : State) : State :=
  match nodeDelta env n state with
  | none => state
  | some delta => { state with messages := add_messages state.messages delta }

/-- Running a sequence of node executions from a starting state. -/
def runNodes (env : Env) (nodes : List GNode) (state : State) : State :=
  nodes.foldl (fun s n => applyNode env n s) state

-- ---------------------------------------------------------------------------
-- The sensitive tool itself (src/src/graph.py lines 47-51, src/main.py
-- lines 31-35)
-- ---------------------------------------------------------------------------

/-- The payload dicts exchanged with `interrupt`: string keys to string
values, first binding wins on lookup. -/
def Payload := List (String × String)

/-- `human_assistance(query)` (identical in src/src/graph.py lines 47-51 and
src/main.py lines 31-35):

```
human_response = interrupt({"query": query})
return human_response["data"]
```

`resumeValue` is the payload the host's resume supplies as the value of
`interrupt(...)`.  The result records the payload sent out with the
interrupt and the tool's return value; the unguarded `["data"]` subscript
raises `KeyError` (modelled `Except.error`) when the key is absent. -/
def human_assistance (resumeValue : Payload) (query : String) :
    Payload × Except String String :=
  ([("query", query)],
   match List.lookup "data" resumeValue with
   | some v => Except.ok v
   | none => Except.error "KeyError")

-- ---------------------------------------------------------------------------
-- Host interrupt handling (src/src/main.py lines 20-25, 53-68)
-- ---------------------------------------------------------------------------

/-- `handle_interrupt(event, human_handler)` (src/src/main.py lines 20-25):
extracts the interrupt payload's `"query"` (with a default), obtains the
human reply, and wraps it as `Command(resume={"data": reply})`, returned
here as the resume payload. -/
def handle_interrupt (interruptValue : Payload)
    (human_handler : String → String) : Payload :=
  let query :=
    match List.lookup "query" interruptValue with
    | some q => q
    | none => "[No query provided]"
  [("data", human_handler query)]

/-- Where the host re-enters the graph after an interrupt. -/
inductive Reentry where
  | streamState
  | streamCommand
deriving DecidableEq, Repr

/-- The interrupt branch of `stream_graph_updates` (src/src/main.py lines
53-68).  Given the host's accumulated `state["messages"]`, the tracked
`last_ai_message` and the resume payload `cmdResume` built by
`handle_interrupt`:

```
if last_ai_message and last_ai_message.tool_calls:
    first_call = last_ai_message.tool_calls[0]
    if "id" in first_call:
        tool_response = ToolMessage(tool_call_id=first_call["id"],
                                    content=cmd.resume["data"])
        state["messages"].append(tool_response)
        iterator = graph_obj.stream(state, config, ...); continue
iterator = graph_obj.stream(cmd, config, ...); continue
```

`cmd.resume["data"]` is an unguarded subscript; in `handle_interrupt`'s
output the key is always present, so we read it with a default that is never
reached.  The first branch restarts the stream with the plain `state` input
(entering the graph at `START`); the fallback streams the `Command`. -/
def stream_interrupt_branch (messages : List Message)
    (last_ai_message : Option Message) (cmdResume : Payload) :
    List Message × Reentry :=
  match last_ai_message with
  | none => (messages, Reentry.streamCommand)
  | some ai =>
    match ai.tool_calls.head? with
    | none => (messages, Reentry.streamCommand)
    | some first_call =>
      match first_call.id with
      | none => (messages, Reentry.streamCommand)
      | some call_id =>
        let data :=
          match List.lookup "data" cmdResume with
          | some d => d
          | none => ""
        (messages ++ [toolMessage call_id data], Reentry.streamState)

/-- The node a fresh `graph_obj.stream(state, ...)` run executes first:
`add_edge(START, "which_intent_decision")` (src/src/graph.py line 178). -/
def graphEntryNode : GNode := GNode.which_intent_decision

/-- The node executing the sensitive tool after a resume:
`add_edge("human_assistance_node", "sensitive_tools")` (src/src/graph.py
line 218) — per spec section 4.5 the node following the suspended one. -/
def nodeFollowingSuspension : GNode := GNode.sensitive_tools

-- ---------------------------------------------------------------------------
-- Interrupt Controller resume (spec sections 4.5, 6, 7)
-- ---------------------------------------------------------------------------

/-- A pending suspension record (spec section 3). -/
structure Suspension where
  thread_id : String
  query : String
  awaiting_call_id : String
deriving DecidableEq, Repr

/-- A thread's persisted checkpoint: its conversation state plus the
pending-suspension token. -/
structure Thread where
  state : State
  suspension : Option Suspension
deriving DecidableEq, Repr

/-- Resume outcome errors (spec section 7). -/
inductive ResumeError where
  | SuspensionMismatch
deriving DecidableEq, Repr

/-- Modelled from the spec: the Interrupt Controller's
`resume(thread_id, reply)` entry point (spec section 4.5), which is realised
by the external langgraph runtime and has no implementation under `src/`:
"requires a Suspension to exist for thread_id; constructs a tool-result
message correlated to the stored call_id with content equal to reply,
appends it to the persisted state, clears the Suspension"; "Calling resume
with no pending Suspension ... is a usage error", a fatal
`SuspensionMismatch` with the thread state left untouched. -/
def resume (t : Thread) (reply : String) : Except ResumeError Thread :=
  match t.suspension with
  | none => Except.error ResumeError.SuspensionMismatch
  | some susp =>
    Except.ok
      { state := { t.state with
          messages := t.state.messages ++
            [toolMessage susp.awaiting_call_id reply] },
        suspension := none }

/-- The persisted thread after a resume attempt: on an error the checkpoint
is unchanged (the error is surfaced to the host, never silently applied). -/
def resumePersisted (t : Thread) (reply : String) : Thread :=
  match resume t reply with
  | Except.ok t' => t'
  | Except.error _ => t

-- ---------------------------------------------------------------------------
-- Theorems
-- ---------------------------------------------------------------------------

/-- C9: whenever `handle_user_confirmation` runs with a latest message that
is not a human message, it returns the label `"unclear"` without invoking the
confirmation classifier (0 classifier calls) and with the state — in
particular `confirmation_retries` — unchanged. -/
theorem C9_nonhuman_reply_skips_classifier
    (classify : String → ConfirmationIntent) (s : State) (m : Message)
    (hlast : s.messages.getLast? = some m) (hrole : m.role ≠ Role.user) :
    handle_user_confirmation classify s =
      some { label := "unclear", state := s, classifierCalls := 0 } := by
  unfold handle_user_confirmation
  rw [hlast]
  simp [hrole]

/-- C9 witness: a concrete state whose latest message is an assistant
message. -/
theorem C9_nonhuman_reply_skips_classifier_witness :
    handle_user_confirmation (fun _ => ConfirmationIntent.confirm)
        { messages := [{ role := Role.assistant, content := "hello" }] } =
      some { label := "unclear",
             state := { messages := [{ role := Role.assistant, content := "hello" }] },
             classifierCalls := 0 } :=
  C9_nonhuman_reply_skips_classifier (fun _ => ConfirmationIntent.confirm)
    { messages := [{ role := Role.assistant, content := "hello" }] }
    { role := Role.assistant, content := "hello" } rfl (by decide)

/-- C1 counterexample: starting from a freshly entered gate
(`confirmation_retries` absent, i.e. count 0) and three consecutive human
replies classified `unclear`, the state afterwards does NOT have
`confirmation_retry_count = 0`: the counter is left at 3 — the forced-deny
branch of `handle_user_confirmation` returns `"deny"` without deleting
`state["confirmation_retries"]` (the `del` sits only in the clear-answer
branch). -/
theorem C1_counterexample_counter_left_at_three :
    (gateThreeRounds (fun _ => ConfirmationIntent.unclear)
        { messages := [humanMessage "shall I ask a human?"],
          confirmation_retries := none } "hm" "huh" "whatever").map
        (fun o => o.2.1.confirmation_retries.getD 0) = some 3 ∧
    (3 : Nat) ≠ 0 := by
  constructor
  · rfl
  · decide

/-- C1 (amended): starting from a freshly entered gate
(`confirmation_retries = none`), three consecutive human replies each
classified `unclear` resolve the gate to the `"deny"` label with exactly 3
classifier calls issued (no fourth classification call), but the retry
counter is left at 3 in the resulting state, not reset to 0. -/
theorem C1_three_unclear_force_deny
    (classify : String → ConfirmationIntent) (s : State) (r1 r2 r3 : String)
    (hfresh : s.confirmation_retries = none)
    (h1 : classify r1 = ConfirmationIntent.unclear)
    (h2 : classify r2 = ConfirmationIntent.unclear)
    (h3 : classify r3 = ConfirmationIntent.unclear) :
    gateThreeRounds classify s r1 r2 r3 =
      some ("deny",
            { messages := s.messages ++
                [humanMessage r1, humanMessage r2, humanMessage r3],
              confirmation_retries := some 3 },
            3) := by
  simp [gateThreeRounds, gateStep, handle_user_confirmation, hfresh, h1, h2, h3,
        humanMessage, MAX_RETRIES]

/-- C1 witness: the amended statement at a concrete gate entry and three
concrete ambiguous replies. -/
theorem C1_three_unclear_force_deny_witness :
    gateThreeRounds (fun _ => ConfirmationIntent.unclear)
        { messages := [humanMessage "shall I consult a human?"],
          confirmation_retries := none } "hm" "huh" "whatever" =
      some ("deny",
            { messages := [humanMessage "shall I consult a human?"] ++
                [humanMessage "hm", humanMessage "huh", humanMessage "whatever"],
              confirmation_retries := some 3 },
            3) :=
  C1_three_unclear_force_deny (fun _ => ConfirmationIntent.unclear)
    { messages := [humanMessage "shall I consult a human?"],
      confirmation_retries := none } "hm" "huh" "whatever" rfl rfl rfl rfl

/-- C2 (code defect): an assistant message carrying the sensitive ToolCall —
the registered `human_assistance` tool — is NOT detected by
`detect_sensitive_case`, because the function compares the call's name
against the graph-node name `"human_assistance_node"` instead of the tool
name `"human_assistance"`; the `is_sensitive_decision` edge therefore routes
the turn back to `chatbot_with_safe_tools_node`, never entering the
confirmation gate. -/
theorem C2_sensitive_tool_call_skips_gate :
    detect_sensitive_case
        { messages := [{ role := Role.assistant, content := "",
                         tool_calls := [{ id := some "call_1",
                                          name := humanAssistanceToolName,
                                          args := "" }] }] } =
      some false ∧
    routeLabel isSensitiveTable (RLabel.bool false) =
      RouteOutcome.target GNode.chatbot_with_safe_tools_node ∧
    GNode.chatbot_with_safe_tools_node ≠
      GNode.awaiting_user_confirmation_decision ∧
    humanAssistanceToolName ≠ "human_assistance_node" := by
  refine ⟨by decide, rfl, by decide, by decide⟩

/-- C4: the `chatbot_with_safe_tools_node` conditional edge always yields a
RoutingError — its evaluator `tools_condition` produces only the string
labels `"tools"` / `"__end__"`, while its routing table is keyed by the
booleans `True` / `False`, so for every state the label is unmapped and is
never silently routed to a default target. -/
theorem C4_chat_edge_label_always_unmapped (s : State) :
    routeLabel chatbotEdgeTable (tools_condition s) =
      RouteOutcome.routingError := by
  unfold tools_condition
  cases s.messages.getLast? with
  | none => rfl
  | some last_msg =>
    by_cases h : last_msg.tool_calls.isEmpty <;> simp [h] <;> rfl

/-- The ≤ 1 ToolCall invariant over a message log: every assistant message
carries at most one ToolCall. -/
def assistantToolCallBound (msgs : List Message) : Prop :=
  ∀ m ∈ msgs, m.role = Role.assistant → m.tool_calls.length ≤ 1

instance (msgs : List Message) : Decidable (assistantToolCallBound msgs) := by
  unfold assistantToolCallBound
  infer_instance

/-- The inference capability's contract (spec section 6): each produced
assistant message has at most one ToolCall. -/
def LLMContract (llm : List Message → Message) : Prop :=
  ∀ msgs, (llm msgs).tool_calls.length ≤ 1

/-- Helper: every message a `ToolNode` produces is a tool-result message. -/
theorem toolNodeDelta_role (exec : ToolCall → String) (s : State)
    (m : Message) (hm : m ∈ toolNodeDelta exec s) : m.role = Role.tool := by
  revert hm
  unfold toolNodeDelta
  cases s.messages.getLast? with
  | none =>
    intro hm
    simp at hm
  | some last_msg =>
    intro hm
    simp only [List.mem_map] at hm
    rcases hm with ⟨tc, _, rfl⟩
    rfl

/-- Helper: every graph node preserves the ≤ 1 ToolCall invariant, given the
safe chat model's contract. -/
theorem assistantToolCallBound_applyNode (env : Env)
    (hsafe : LLMContract env.safe_llm) (n : GNode) (s : State)
    (hinv : assistantToolCallBound s.messages) :
    assistantToolCallBound ((applyNode env n s).messages) := by
  cases n <;>
    simp only [applyNode, nodeDelta, add_messages, chatbot_with_safe_tools,
               end_conversation_node]
  case START => exact hinv
  case which_intent_decision => simpa [assistantToolCallBound] using hinv
  case chatbot_with_safe_tools_node =>
    by_cases h : (env.safe_llm s.messages).tool_calls.length ≤ 1
    · simp only [if_pos h]
      intro m hm hrole
      rcases List.mem_append.mp hm with hm | hm
      · exact hinv m hm hrole
      · rcases List.mem_singleton.mp hm with rfl
        exact h
    · simp only [if_neg h]
      exact hinv
  case safe_tools =>
    intro m hm hrole
    rcases List.mem_append.mp hm with hm | hm
    · exact hinv m hm hrole
    · rw [toolNodeDelta_role env.safe_exec s m hm] at hrole
      exact absurd hrole (by decide)
  case sensitive_tools =>
    intro m hm hrole
    rcases List.mem_append.mp hm with hm | hm
    · exact hinv m hm hrole
    · rw [toolNodeDelta_role env.sensitive_exec s m hm] at hrole
      exact absurd hrole (by decide)
  case is_sensitive_decision => exact hinv
  case awaiting_user_confirmation_decision => exact hinv
  case human_assistance_node =>
    intro m hm hrole
    rcases List.mem_append.mp hm with hm | hm
    · exact hinv m hm hrole
    · exact hinv m hm hrole
  case end_conversation_node =>
    intro m hm hrole
    rcases List.mem_append.mp hm with hm | hm
    · exact hinv m hm hrole
    · rcases List.mem_singleton.mp hm with rfl
      exact hsafe s.messages
  case END => exact hinv

/-- C5: under the inference capability's contract (at most one ToolCall per
produced assistant message), the chat node's assertion never fails — its
body returns a valid delta on every state — and the ≤ 1 ToolCall invariant
holds in every state reachable by executing any sequence of graph nodes
from a state satisfying it. -/
theorem C5_assistant_messages_single_tool_call (env : Env)
    (hsafe : LLMContract env.safe_llm)
    (nodes : List GNode) (s : State)
    (hinv : assistantToolCallBound s.messages) :
    (chatbot_with_safe_tools env s).isSome = true ∧
    assistantToolCallBound ((runNodes env nodes s).messages) := by
  constructor
  · simp [chatbot_with_safe_tools, hsafe s.messages]
  · unfold runNodes
    induction nodes generalizing s with
    | nil => exact hinv
    | cons n rest ih =>
      exact ih (applyNode env n s)
        (assistantToolCallBound_applyNode env hsafe n s hinv)

/-- C5 witness: a concrete contract-abiding chat model, a concrete start
state and a concrete node sequence. -/
theorem C5_assistant_messages_single_tool_call_witness :
    (chatbot_with_safe_tools
        { safe_llm := fun _ => { role := Role.assistant, content := "ok" },
          sensitive_llm := fun _ => { role := Role.assistant, content := "ok" },
          safe_exec := fun _ => "result", sensitive_exec := fun _ => "result" }
        { messages := [humanMessage "hi"] }).isSome = true ∧
    assistantToolCallBound
      ((runNodes
          { safe_llm := fun _ => { role := Role.assistant, content := "ok" },
            sensitive_llm := fun _ => { role := Role.assistant, content := "ok" },
            safe_exec := fun _ => "result", sensitive_exec := fun _ => "result" }
          [GNode.which_intent_decision, GNode.chatbot_with_safe_tools_node,
           GNode.end_conversation_node]
          { messages := [humanMessage "hi"] }).messages) :=
  C5_assistant_messages_single_tool_call
    { safe_llm := fun _ => { role := Role.assistant, content := "ok" },
      sensitive_llm := fun _ => { role := Role.assistant, content := "ok" },
      safe_exec := fun _ => "result", sensitive_exec := fun _ => "result" }
    (fun _ => Nat.zero_le 1)
    [GNode.which_intent_decision, GNode.chatbot_with_safe_tools_node,
     GNode.end_conversation_node]
    { messages := [humanMessage "hi"] }
    (by decide)

/-- Whether any message of a log carries a ToolCall. -/
def logHasToolCall (msgs : List Message) : Bool :=
  msgs.any (fun m => !m.tool_calls.isEmpty)

/-- C6 counterexample: a conversation in which an earlier assistant turn
already used the safe search tool and the user then says "bye".  The intent
classifier labels it `exit` and the engine routes to `end_conversation_node`
(the terminal node), which appends a closing assistant message — yet the
resulting message log still contains a ToolCall, contradicting "no ToolCall
is present anywhere in the resulting message log". -/
theorem C6_counterexample_exit_log_keeps_tool_calls :
    check_user_intent (fun _ => IntentLabel.exit)
        { messages :=
            [humanMessage "search for LangGraph",
             { role := Role.assistant, content := "",
               tool_calls := [{ id := some "call_7", name := "tavily_search",
                                args := "LangGraph" }] },
             toolMessage "call_7" "LangGraph is a graph runtime",
             humanMessage "bye"] } = some IntentLabel.exit ∧
    routeLabel whichIntentTable (RLabel.str IntentLabel.exit.value) =
      RouteOutcome.target GNode.end_conversation_node ∧
    logHasToolCall
      ((applyNode
          { safe_llm := fun _ => { role := Role.assistant, content := "bye then" },
            sensitive_llm := fun _ => { role := Role.assistant, content := "" },
            safe_exec := fun _ => "", sensitive_exec := fun _ => "" }
          GNode.end_conversation_node
          { messages :=
              [humanMessage "search for LangGraph",
               { role := Role.assistant, content := "",
                 tool_calls := [{ id := some "call_7", name := "tavily_search",
                                  args := "LangGraph" }] },
               toolMessage "call_7" "LangGraph is a graph runtime",
               humanMessage "bye"] }).messages) = true := by
  refine ⟨rfl, rfl, rfl⟩

/-- C6 (amended): when the intent classifier labels the latest human message
`exit`, the engine routes to the terminal `end_conversation_node`, which
appends exactly one closing chat-model message and performs no tool
execution; the resulting log is free of ToolCalls only when the prior log
already was and the closing message carries none — ToolCalls from earlier
turns survive in the log. -/
theorem C6_exit_routes_to_terminal_node (env : Env)
    (classify_intent : String → IntentLabel) (s : State) (m : Message)
    (hfind : s.messages.reverse.find? (fun x => x.role = Role.user) = some m)
    (hexit : classify_intent m.content = IntentLabel.exit) :
    check_user_intent classify_intent s = some IntentLabel.exit ∧
    routeLabel whichIntentTable (RLabel.str IntentLabel.exit.value) =
      RouteOutcome.target GNode.end_conversation_node ∧
    (applyNode env GNode.end_conversation_node s).messages =
      s.messages ++ [env.safe_llm s.messages] ∧
    (logHasToolCall s.messages = false →
      (env.safe_llm s.messages).tool_calls = [] →
      logHasToolCall
        ((applyNode env GNode.end_conversation_node s).messages) = false) := by
  refine ⟨?_, rfl, rfl, ?_⟩
  · unfold check_user_intent
    rw [hfind]
    simp [hexit]
  · intro hlog hclosing
    simp only [applyNode, nodeDelta, end_conversation_node, add_messages,
               logHasToolCall, List.any_append, List.any_cons, List.any_nil,
               hclosing] at *
    simpa using hlog

/-- C6 witness: a fresh "bye" conversation with a tool-call-free closing
model message. -/
theorem C6_exit_routes_to_terminal_node_witness :
    check_user_intent (fun _ => IntentLabel.exit)
        { messages := [humanMessage "bye"] } = some IntentLabel.exit ∧
    routeLabel whichIntentTable (RLabel.str IntentLabel.exit.value) =
      RouteOutcome.target GNode.end_conversation_node ∧
    (applyNode
        { safe_llm := fun _ => { role := Role.assistant, content := "bye then" },
          sensitive_llm := fun _ => { role := Role.assistant, content := "" },
          safe_exec := fun _ => "", sensitive_exec := fun _ => "" }
        GNode.end_conversation_node
        { messages := [humanMessage "bye"] }).messages =
      { messages := [humanMessage "bye"] : State }.messages ++
        [({ safe_llm := fun _ => { role := Role.assistant, content := "bye then" },
            sensitive_llm := fun _ => { role := Role.assistant, content := "" },
            safe_exec := fun _ => "", sensitive_exec := fun _ => "" } : Env).safe_llm
          { messages := [humanMessage "bye"] : State }.messages] ∧
    (logHasToolCall { messages := [humanMessage "bye"] : State }.messages = false →
      (({ safe_llm := fun _ => { role := Role.assistant, content := "bye then" },
          sensitive_llm := fun _ => { role := Role.assistant, content := "" },
          safe_exec := fun _ => "", sensitive_exec := fun _ => "" } : Env).safe_llm
          { messages := [humanMessage "bye"] : State }.messages).tool_calls = [] →
      logHasToolCall
        ((applyNode
            { safe_llm := fun _ => { role := Role.assistant, content := "bye then" },
              sensitive_llm := fun _ => { role := Role.assistant, content := "" },
              safe_exec := fun _ => "", sensitive_exec := fun _ => "" }
            GNode.end_conversation_node
            { messages := [humanMessage "bye"] }).messages) = false) :=
  C6_exit_routes_to_terminal_node
    { safe_llm := fun _ => { role := Role.assistant, content := "bye then" },
      sensitive_llm := fun _ => { role := Role.assistant, content := "" },
      safe_exec := fun _ => "", sensitive_exec := fun _ => "" }
    (fun _ => IntentLabel.exit)
    { messages := [humanMessage "bye"] }
    (humanMessage "bye") rfl rfl

/-- C8: node executions are append-only on the message log — for every
graph node and every state, the prior messages sequence is a prefix of the
resulting messages sequence, and likewise along any sequence of node
executions. -/
theorem C8_nodes_append_only (env : Env) (n : GNode) (nodes : List GNode)
    (s : State) :
    s.messages <+: (applyNode env n s).messages ∧
    s.messages <+: (runNodes env nodes s).messages := by
  constructor
  · unfold applyNode
    cases nodeDelta env n s with
    | none => exact List.prefix_refl _
    | some delta => exact List.prefix_append _ _
  · unfold runNodes
    induction nodes generalizing s with
    | nil => exact List.prefix_refl _
    | cons k rest ih =>
      refine List.IsPrefix.trans ?_ (ih (applyNode env k s))
      unfold applyNode
      cases nodeDelta env k s with
      | none => exact List.prefix_refl _
      | some delta => exact List.prefix_append _ _

/-- C3 counterexample: a concrete suspend-then-resume.  The suspended
`human_assistance` call has id `"call_9"`; the host resumes with reply
"Yes, do it".  The tool-result message is appended correctly, but the host
then restarts the stream with the plain accumulated state
(`graph_obj.stream(state, ...)`), so execution re-enters the graph at its
entry node `which_intent_decision` — not at the node following the
suspended one (`sensitive_tools`) as the claim requires. -/
theorem C3_counterexample_reenters_at_graph_entry :
    stream_interrupt_branch
        [humanMessage "ask a human about X",
         { role := Role.assistant, content := "",
           tool_calls := [{ id := some "call_9",
                            name := humanAssistanceToolName, args := "X" }] }]
        (some { role := Role.assistant, content := "",
                tool_calls := [{ id := some "call_9",
                                 name := humanAssistanceToolName,
                                 args := "X" }] })
        (handle_interrupt [("query", "X")] (fun _ => "Yes, do it")) =
      ([humanMessage "ask a human about X",
        { role := Role.assistant, content := "",
          tool_calls := [{ id := some "call_9",
                           name := humanAssistanceToolName, args := "X" }] },
        toolMessage "call_9" "Yes, do it"],
       Reentry.streamState) ∧
    graphEntryNode = GNode.which_intent_decision ∧
    graphEntryNode ≠ nodeFollowingSuspension := by
  refine ⟨rfl, rfl, by decide⟩

/-- C3 (amended): for a suspension raised for a sensitive ToolCall with id
`C` and latest assistant message carrying exactly that call, resuming with
reply text `R` appends exactly one tool-result message — content `R`,
`tool_call_id = C` — to the host's accumulated state; execution then
re-enters the graph from its entry node (`which_intent_decision`), not at
the node following the suspended one. -/
theorem C3_resume_appends_correlated_result (msgs : List Message)
    (ai : Message) (tc : ToolCall) (C R q : String)
    (hcalls : ai.tool_calls = [tc]) (hid : tc.id = some C) :
    stream_interrupt_branch msgs (some ai)
        (handle_interrupt [("query", q)] (fun _ => R)) =
      (msgs ++ [toolMessage C R], Reentry.streamState) ∧
    (toolMessage C R).content = R ∧
    (toolMessage C R).tool_call_id = some C ∧
    graphEntryNode = GNode.which_intent_decision := by
  refine ⟨?_, rfl, rfl, rfl⟩
  simp [stream_interrupt_branch, handle_interrupt, hcalls, hid]

/-- C3 witness: the amended statement at the concrete suspended call
`"call_9"` and reply "Yes, do it". -/
theorem C3_resume_appends_correlated_result_witness :
    stream_interrupt_branch [humanMessage "ask a human about X"]
        (some { role := Role.assistant, content := "",
                tool_calls := [{ id := some "call_9",
                                 name := humanAssistanceToolName,
                                 args := "X" }] })
        (handle_interrupt [("query", "X")] (fun _ => "Yes, do it")) =
      ([humanMessage "ask a human about X"] ++
        [toolMessage "call_9" "Yes, do it"], Reentry.streamState) ∧
    (toolMessage "call_9" "Yes, do it").content = "Yes, do it" ∧
    (toolMessage "call_9" "Yes, do it").tool_call_id = some "call_9" ∧
    graphEntryNode = GNode.which_intent_decision :=
  C3_resume_appends_correlated_result [humanMessage "ask a human about X"]
    { role := Role.assistant, content := "",
      tool_calls := [{ id := some "call_9",
                       name := humanAssistanceToolName, args := "X" }] }
    { id := some "call_9", name := humanAssistanceToolName, args := "X" }
    "call_9" "Yes, do it" "X" rfl rfl

/-- C7: resuming a thread with no pending Suspension yields the fatal
`SuspensionMismatch` usage error; the persisted thread is left untouched, so
in particular no duplicated tool-result message is appended (the log's
length is unchanged). -/
theorem C7_resume_without_suspension_mismatch (t : Thread) (reply : String)
    (h : t.suspension = none) :
    resume t reply = Except.error ResumeError.SuspensionMismatch ∧
    resumePersisted t reply = t ∧
    (resumePersisted t reply).state.messages.length =
      t.state.messages.length := by
  refine ⟨?_, ?_, ?_⟩ <;> simp [resume, resumePersisted, h]

/-- C7 witness: a concrete never-suspended thread. -/
theorem C7_resume_without_suspension_mismatch_witness :
    resume { state := { messages := [humanMessage "hi"] }, suspension := none }
        "stray reply" = Except.error ResumeError.SuspensionMismatch ∧
    resumePersisted
        { state := { messages := [humanMessage "hi"] }, suspension := none }
        "stray reply" =
      { state := { messages := [humanMessage "hi"] }, suspension := none } ∧
    (resumePersisted
        { state := { messages := [humanMessage "hi"] }, suspension := none }
        "stray reply").state.messages.length =
      ({ state := { messages := [humanMessage "hi"] },
         suspension := none } : Thread).state.messages.length :=
  C7_resume_without_suspension_mismatch
    { state := { messages := [humanMessage "hi"] }, suspension := none }
    "stray reply" rfl

/-- C10: the `human_assistance` tool returns exactly the value of the
`"data"` field of the resume payload — when every resume payload contains
the key `"data"` the error branch is unreachable (the result is `ok` with
that exact value), while a payload lacking `"data"` makes the tool raise a
`KeyError` rather than return any default. -/
theorem C10_human_assistance_returns_data_field (payload : Payload)
    (q v : String) :
    (List.lookup "data" payload = some v →
      (human_assistance payload q).2 = Except.ok v) ∧
    (List.lookup "data" payload = none →
      (human_assistance payload q).2 = Except.error "KeyError") := by
  constructor
  · intro h
    simp [human_assistance, h]
  · intro h
    simp [human_assistance, h]

/-- C10 witness: a payload carrying `"data"` yields exactly that value. -/
theorem C10_human_assistance_returns_data_field_witness :
    (human_assistance [("data", "We are here to help")]
        "need an expert").2 = Except.ok "We are here to help" :=
  (C10_human_assistance_returns_data_field
      [("data", "We are here to help")] "need an expert"
      "We are here to help").1 rfl
